import Mathlib

/-!
Verification of the football-betting prediction engine.

Shallow embedding of the statistical core of the repository:
ELO rating updates (`src/features/elo_calculator.py`), the recency form
summarizer (`src/features/form_calculator.py`), the Poisson goal
distribution model (`src/models/goals/poisson_goals.py`), the market
predictors (`src/models/goals/btts.py`, `src/models/goals/over_under.py`),
the feature aggregator (`src/features/feature_engine.py`) and the ensemble
combiner (`src/models/ensemble.py`).

Real-valued formulas involving `exp`, `sqrt` and `10 ** x` are embedded
over `ℝ`; purely rational arithmetic (feature aggregation, betting
recommendations, ensemble weighting, form summaries, expected-goal
clamping) is embedded over `ℚ` so that those definitions stay executable.

The file is laid out as definitions first, then the theorems.
-/

open Real
open scoped BigOperators

/-! ## Definitions: ELO calculator (`src/features/elo_calculator.py`)

`ELOCalculator.__init__` defaults: `k_factor = 20.0`, `home_advantage =
100.0`, `goal_importance = 1.0`. -/

/-- Embedding of `ELOCalculator.calculate_expected_score` (lines 74-111):
when `is_home` the home advantage is added to the team's rating, then
`1 / (1 + 10 ** ((opponent_elo - team_elo) / 400))`. -/
noncomputable def calculateExpectedScore (homeAdvantage teamElo opponentElo : ℝ)
    (isHome : Bool) : ℝ :=
  1 / (1 + (10 : ℝ) ^
    ((opponentElo - (if isHome then teamElo + homeAdvantage else teamElo)) / 400))

/-- Embedding of `ELOCalculator.calculate_actual_score` (lines 113-133):
1.0 win, 0.5 draw, 0.0 loss by goal comparison. -/
def calculateActualScore (teamGoals opponentGoals : ℕ) : ℝ :=
  if teamGoals > opponentGoals then 1
  else if teamGoals = opponentGoals then 0.5
  else 0

/-- Embedding of `ELOCalculator.calculate_goal_difference_multiplier`
(lines 135-161): `1.0` when the absolute goal difference is at most one,
otherwise `min (1 + sqrt (gd - 1) * goal_importance * 0.5) 2.5`. -/
noncomputable def calculateGoalDifferenceMultiplier (goalImportance : ℝ)
    (goalDifference : ℕ) : ℝ :=
  if goalDifference ≤ 1 then 1
  else min (1 + Real.sqrt ((goalDifference : ℝ) - 1) * goalImportance * 0.5) 2.5

/-- Embedding of `ELOCalculator.update_elo` (lines 163-225): expected score
for the home side is computed with `is_home=True`, the away expectation is
its complement; the new ratings are `old + k * gd_multiplier * (actual -
expected)` for each side. The absolute goal difference
`abs(home_goals - away_goals)` is written `max - min` on `ℕ`. -/
noncomputable def updateElo (k homeAdvantage goalImportance homeElo awayElo : ℝ)
    (homeGoals awayGoals : ℕ) : ℝ × ℝ :=
  let homeExpected := calculateExpectedScore homeAdvantage homeElo awayElo true
  let awayExpected := 1 - homeExpected
  let homeActual := calculateActualScore homeGoals awayGoals
  let awayActual := 1 - homeActual
  let goalDiff := max homeGoals awayGoals - min homeGoals awayGoals
  let gdMultiplier := calculateGoalDifferenceMultiplier goalImportance goalDiff
  (homeElo + k * gdMultiplier * (homeActual - homeExpected),
   awayElo + k * gdMultiplier * (awayActual - awayExpected))

/-! ## Definitions: Poisson goals model
(`src/models/goals/poisson_goals.py`) -/

/-- Poisson probability mass function `P(X = k) = exp(-lam) * lam^k / k!`,
the quantity computed by `scipy.stats.poisson.pmf` in
`GoalsModel.calculate_match_probabilities` (line 243). -/
noncomputable def poissonPmf (lam : ℝ) (k : ℕ) : ℝ :=
  Real.exp (-lam) * lam ^ k / (Nat.factorial k)

/-- Scoreline grid of `calculate_match_probabilities` (lines 249-252): all
pairs of goal counts `0 .. max_goals` for each side (default
`max_goals = 10`). -/
def scorelineGrid (maxGoals : ℕ) : Finset (ℕ × ℕ) :=
  Finset.range (maxGoals + 1) ×ˢ Finset.range (maxGoals + 1)

/-- Joint probability of a scoreline: product of the two independent
Poisson marginals (line 251). -/
noncomputable def scorelineProb (homeXg awayXg : ℝ) (p : ℕ × ℕ) : ℝ :=
  poissonPmf homeXg p.1 * poissonPmf awayXg p.2

/-- The `home_win` entry of `calculate_match_probabilities`
(lines 255-257): sum over cells with `h > a`. -/
noncomputable def homeWinProb (homeXg awayXg : ℝ) (maxGoals : ℕ) : ℝ :=
  ∑ p in (scorelineGrid maxGoals).filter (fun p => p.1 > p.2),
    scorelineProb homeXg awayXg p

/-- The `draw` entry of `calculate_match_probabilities` (lines 258-260):
sum over cells with `h == a`. -/
noncomputable def drawProb (homeXg awayXg : ℝ) (maxGoals : ℕ) : ℝ :=
  ∑ p in (scorelineGrid maxGoals).filter (fun p => p.1 = p.2),
    scorelineProb homeXg awayXg p

/-- The `away_win` entry of `calculate_match_probabilities`
(lines 261-263): sum over cells with `h < a`. -/
noncomputable def awayWinProb (homeXg awayXg : ℝ) (maxGoals : ℕ) : ℝ :=
  ∑ p in (scorelineGrid maxGoals).filter (fun p => p.1 < p.2),
    scorelineProb homeXg awayXg p

/-- The `over_25` entry of `calculate_match_probabilities`
(lines 272-274): sum over cells with `h + a > 2.5`. -/
noncomputable def over25Prob (homeXg awayXg : ℝ) (maxGoals : ℕ) : ℝ :=
  ∑ p in (scorelineGrid maxGoals).filter (fun p => ((p.1 + p.2 : ℕ) : ℚ) > 5 / 2),
    scorelineProb homeXg awayXg p

/-- The `btts` entry of `calculate_match_probabilities` (lines 280-282):
sum over cells with `h > 0 and a > 0`. -/
noncomputable def bttsProb (homeXg awayXg : ℝ) (maxGoals : ℕ) : ℝ :=
  ∑ p in (scorelineGrid maxGoals).filter (fun p => 0 < p.1 ∧ 0 < p.2),
    scorelineProb homeXg awayXg p

/-- Guarded fair-odds computation of `GoalsModel.predict_match`
(lines 365-373): `1 / probability` when the probability is strictly
positive, sentinel `999` otherwise. -/
noncomputable def fairOdd (p : ℝ) : ℝ :=
  if p > 0 then 1 / p else 999

/-- The `fair_odds` dictionary of `predict_match` (lines 365-373): one
guarded fair-odds entry per main market. -/
structure FairOdds where
  homeWin : ℝ
  draw : ℝ
  awayWin : ℝ
  over25 : ℝ
  under25 : ℝ
  bttsYes : ℝ
  bttsNo : ℝ

/-- Embedding of the fair-odds construction in `predict_match`: the market
probabilities are the ones returned by `calculate_match_probabilities`
with the default `max_goals = 10`; `under_25` and `btts_no` are the
complements computed on lines 300 and 303. -/
noncomputable def predictMatchFairOdds (homeXg awayXg : ℝ) : FairOdds where
  homeWin := fairOdd (homeWinProb homeXg awayXg 10)
  draw := fairOdd (drawProb homeXg awayXg 10)
  awayWin := fairOdd (awayWinProb homeXg awayXg 10)
  over25 := fairOdd (over25Prob homeXg awayXg 10)
  under25 := fairOdd (1 - over25Prob homeXg awayXg 10)
  bttsYes := fairOdd (bttsProb homeXg awayXg 10)
  bttsNo := fairOdd (1 - bttsProb homeXg awayXg 10)

/-! ## Definitions: expected goals
(`GoalsModel.calculate_expected_goals`, `poisson_goals.py` lines 98-202)

The database lookups (team features, league averages, ELO ratings, form
differential) are parameters of the embedding; the arithmetic on them is
taken from the source. Only rational operations occur, so this part is
embedded over `ℚ`. -/

/-- Constructor parameters of `GoalsModel.__init__` (defaults:
`home_advantage = 1.3`, `use_elo = True`, `use_form = True`,
`elo_weight = 0.3`, `form_weight = 0.2`). -/
structure GoalsModelConfig where
  homeAdvantage : ℚ
  useElo : Bool
  useForm : Bool
  eloWeight : ℚ
  formWeight : ℚ

/-- ELO adjustment multiplier of `calculate_expected_goals` (line 167):
`1 + (elo_diff / 1000) * elo_weight`. -/
def eloAdjustMultiplier (cfg : GoalsModelConfig) (homeElo awayElo : ℚ) : ℚ :=
  1 + ((homeElo - awayElo) / 1000) * cfg.eloWeight

/-- Form adjustment multiplier of `calculate_expected_goals` (line 184):
`1 + (form_diff * 0.1 * form_weight)`. -/
def formAdjustMultiplier (cfg : GoalsModelConfig) (formDifferential : ℚ) : ℚ :=
  1 + formDifferential * (1 / 10) * cfg.formWeight

/-- Clamp of `calculate_expected_goals` (lines 189-196): first
`min(xg, 5.0)`, then `max(xg, 0.2)`. -/
def clampXg (x : ℚ) : ℚ :=
  max (min x 5) (1 / 5)

/-- Embedding of `GoalsModel.calculate_expected_goals` (lines 98-202).
Base values: `home = home_attack * away_defence * league_home_gpg *
home_advantage` and `away = away_attack * home_defence * league_away_gpg`;
when enabled, the home value is multiplied by the ELO and form multipliers
and the away value divided by them; both results are clamped. -/
def calculateExpectedGoals (cfg : GoalsModelConfig)
    (homeAttack homeDefence awayAttack awayDefence
      leagueHomeGoalsPerGame leagueAwayGoalsPerGame
      homeElo awayElo formDifferential : ℚ) : ℚ × ℚ :=
  let homeBase := homeAttack * awayDefence * leagueHomeGoalsPerGame * cfg.homeAdvantage
  let awayBase := awayAttack * homeDefence * leagueAwayGoalsPerGame
  let homeAfterElo :=
    if cfg.useElo then homeBase * eloAdjustMultiplier cfg homeElo awayElo else homeBase
  let awayAfterElo :=
    if cfg.useElo then awayBase / eloAdjustMultiplier cfg homeElo awayElo else awayBase
  let homeAfterForm :=
    if cfg.useForm then homeAfterElo * formAdjustMultiplier cfg formDifferential
    else homeAfterElo
  let awayAfterForm :=
    if cfg.useForm then awayAfterElo / formAdjustMultiplier cfg formDifferential
    else awayAfterElo
  (clampXg homeAfterForm, clampXg awayAfterForm)

/-- A `GoalsModel` configuration with both optional adjustments disabled
and the default home advantage, used for concrete evaluations. -/
def goalsConfigPlain : GoalsModelConfig :=
  { homeAdvantage := 13 / 10
    useElo := false
    useForm := false
    eloWeight := 3 / 10
    formWeight := 1 / 5 }

/-! ## Definitions: form calculator (`src/features/form_calculator.py`)

A finished match is represented from the queried team's perspective as a
pair `(goals_for, goals_against)`; `calculate_team_form` receives the
matches newest first, as produced by `get_recent_matches`. -/

/-- Points part of `FormCalculator.calculate_match_result` (lines 130-172):
3 for a win, 1 for a draw, 0 for a loss. -/
def matchPoints (m : ℕ × ℕ) : ℕ :=
  if m.1 > m.2 then 3 else if m.1 = m.2 then 1 else 0

/-- Result-letter part of `calculate_match_result`. -/
def matchResultChar (m : ℕ × ℕ) : Char :=
  if m.1 > m.2 then 'W' else if m.1 = m.2 then 'D' else 'L'

/-- Embedding of `FormCalculator.calculate_exponential_weights`
(lines 174-204): weight `decay ^ i` for the i-th most recent match. -/
def calculateExponentialWeights (decay : ℚ) (numGames : ℕ) : List ℚ :=
  (List.range numGames).map (fun i => decay ^ i)

/-- Return dictionary of `FormCalculator.calculate_team_form`
(lines 306-324); the same keys are produced by `_empty_form`
(lines 374-394). This key set matters to the feature aggregator: the
dictionary has a `points` key but no `home_points` or `away_points` key. -/
structure FormDict where
  gamesPlayed : ℕ
  points : ℕ
  pointsPerGame : ℚ
  wins : ℕ
  draws : ℕ
  losses : ℕ
  winRate : ℚ
  goalsFor : ℕ
  goalsAgainst : ℕ
  goalsForPerGame : ℚ
  goalsAgainstPerGame : ℚ
  goalDifference : ℤ
  weightedPoints : ℚ
  formString : String
  momentum : String
  cleanSheets : ℕ
  failedToScore : ℕ
  deriving DecidableEq

/-- Embedding of `FormCalculator._empty_form` (lines 374-394): the neutral
default returned when no matches are available. Note the source sets
`points_per_game` to `0.0`. -/
def emptyForm : FormDict where
  gamesPlayed := 0
  points := 0
  pointsPerGame := 0
  wins := 0
  draws := 0
  losses := 0
  winRate := 0
  goalsFor := 0
  goalsAgainst := 0
  goalsForPerGame := 0
  goalsAgainstPerGame := 0
  goalDifference := 0
  weightedPoints := 0
  formString := ""
  momentum := "neutral"
  cleanSheets := 0
  failedToScore := 0

/-- Embedding of `FormCalculator._calculate_momentum` (lines 326-372):
with fewer than 4 matches the momentum is neutral; otherwise the list
(newest first) is split at `len // 2`, points per game are compared, and a
difference above 0.5 in either direction gives positive or negative
momentum. -/
def calculateMomentum (ms : List (ℕ × ℕ)) : String :=
  if ms.length < 4 then "neutral"
  else
    let mid := ms.length / 2
    let recent := ms.take mid
    let older := ms.drop mid
    let recentPpg : ℚ := ((recent.map matchPoints).sum : ℕ) / (recent.length : ℚ)
    let olderPpg : ℚ := ((older.map matchPoints).sum : ℕ) / (older.length : ℚ)
    if recentPpg > olderPpg + 1 / 2 then "positive"
    else if recentPpg < olderPpg - 1 / 2 then "negative"
    else "neutral"

/-- Embedding of `FormCalculator.calculate_team_form` (lines 206-324) on an
already-fetched match list (newest first, team perspective). With no
matches the `_empty_form` defaults are returned; otherwise the counters of
the processing loop (lines 262-299) are accumulated. The per-game
divisions are guarded in the source by `if games_played > 0`; in this
branch the list is nonempty so the guard always takes the division. -/
def calculateTeamForm (decay : ℚ) (ms : List (ℕ × ℕ)) : FormDict :=
  if ms.isEmpty then emptyForm
  else
    let weights := calculateExponentialWeights decay ms.length
    let points := (ms.map matchPoints).sum
    let gp := ms.length
    { gamesPlayed := gp
      points := points
      pointsPerGame := (points : ℚ) / (gp : ℚ)
      wins := (ms.filter (fun m => m.1 > m.2)).length
      draws := (ms.filter (fun m => m.1 = m.2)).length
      losses := (ms.filter (fun m => m.1 < m.2)).length
      winRate := ((ms.filter (fun m => m.1 > m.2)).length : ℚ) / (gp : ℚ)
      goalsFor := (ms.map (fun m => m.1)).sum
      goalsAgainst := (ms.map (fun m => m.2)).sum
      goalsForPerGame := ((ms.map (fun m => m.1)).sum : ℚ) / (gp : ℚ)
      goalsAgainstPerGame := ((ms.map (fun m => m.2)).sum : ℚ) / (gp : ℚ)
      goalDifference := ((ms.map (fun m => m.1)).sum : ℤ) -
        ((ms.map (fun m => m.2)).sum : ℤ)
      weightedPoints := (List.zipWith (fun m w => (matchPoints m : ℚ) * w) ms weights).sum
      formString := String.mk (ms.map matchResultChar)
      momentum := calculateMomentum ms
      cleanSheets := (ms.filter (fun m => m.2 = 0)).length
      failedToScore := (ms.filter (fun m => m.1 = 0)).length }

/-! ## Definitions: feature aggregator (`src/features/feature_engine.py`)

`FeatureEngine.get_match_features` (lines 114-351) wraps each of its seven
feature sources in its own `try`/`except` block. The embedding takes the
outcome of each source computation as an `Except` value and reproduces the
success branch (including the `dict.get(key, default)` reads against the
actual key set of each sub-calculator's return dictionary) and the
`except` branch defaults. -/

/-- Keys of the dictionary returned by `calculate_match_statistics`
(`src/features/core/team_statistics.py` lines 127-160) that are relevant
to the engine. The goals-per-game keys of that dictionary are named
`*_pg`, not `*_avg`. -/
structure StatsDict where
  homeAttackStrength : ℚ
  awayAttackStrength : ℚ
  homeDefenceStrength : ℚ
  awayDefenceStrength : ℚ
  homeGoalsForPg : ℚ
  awayGoalsForPg : ℚ
  homeGoalsAgainstPg : ℚ
  awayGoalsAgainstPg : ℚ
  deriving DecidableEq

/-- Keys of the dictionary returned by `HeadToHeadAnalyser.analyse_h2h`
(`src/features/match_context/head_to_head.py` lines 149-169) that are
relevant to the engine. The goals keys of that dictionary are named
`avg_home_goals` and so on, not `home_goals_avg`. -/
structure H2HDict where
  matchesPlayed : ℕ
  homeWins : ℕ
  draws : ℕ
  awayWins : ℕ
  avgHomeGoals : ℚ
  avgAwayGoals : ℚ
  avgTotalGoals : ℚ
  deriving DecidableEq

/-- Keys of `RivalryDetector.detect_rivalry`
(`src/features/match_context/rivalry.py`) read by the engine. -/
structure RivalryDict where
  isRivalry : Bool
  isDerby : Bool
  rivalryType : String
  deriving DecidableEq

/-- Part of the return dictionary of
`ImportanceCalculator.calculate_importance`
(`src/features/match_context/importance.py` lines 111-124). None of its
keys (`importance_score`, `points_gap`, positions, stakes flags) is among
the keys the engine reads. -/
structure ImportanceDict where
  importanceScore : ℚ
  pointsGap : ℚ
  homePosition : ℕ
  awayPosition : ℕ
  deriving DecidableEq

/-- Part of the return dictionary of `SeasonTimingAnalyser.analyse_timing`
(`src/features/match_context/season_timing.py` lines 126-145). None of its
keys (`season_stage`, `gameweek_estimate`, congestion fields) is among the
keys the engine reads. -/
structure TimingDict where
  seasonStage : String
  gameweekEstimate : ℕ
  matchesIntoSeason : ℕ
  deriving DecidableEq

/-- ELO feature group written on lines 186-200 of `feature_engine.py`. -/
structure EloBlock where
  homeElo : ℚ
  awayElo : ℚ
  eloDiff : ℚ
  eloDiffAbs : ℚ
  deriving DecidableEq

/-- Form feature group written on lines 207-223. -/
structure FormBlock where
  homeFormPoints : ℚ
  awayFormPoints : ℚ
  homeFormHomePoints : ℚ
  awayFormAwayPoints : ℚ
  formDiff : ℚ
  deriving DecidableEq

/-- Team-statistics feature group written on lines 233-255. -/
structure StatsBlock where
  homeAttackStrength : ℚ
  homeDefenceStrength : ℚ
  awayAttackStrength : ℚ
  awayDefenceStrength : ℚ
  homeGoalsForAvg : ℚ
  homeGoalsAgainstAvg : ℚ
  awayGoalsForAvg : ℚ
  awayGoalsAgainstAvg : ℚ
  deriving DecidableEq

/-- Head-to-head feature group written on lines 265-285. -/
structure H2HBlock where
  h2hMatchesPlayed : ℚ
  h2hHomeWins : ℚ
  h2hAwayWins : ℚ
  h2hDraws : ℚ
  h2hHomeGoalsAvg : ℚ
  h2hAwayGoalsAvg : ℚ
  h2hTotalGoalsAvg : ℚ
  deriving DecidableEq

/-- Rivalry feature group written on lines 294-306. -/
structure RivalryBlock where
  isRivalry : Bool
  isDerby : Bool
  rivalryType : String
  deriving DecidableEq

/-- Importance feature group written on lines 316-328. -/
structure ImportanceBlock where
  homeImportance : ℚ
  awayImportance : ℚ
  matchImportance : ℚ
  deriving DecidableEq

/-- Season-timing feature group written on lines 334-348. -/
structure TimingBlock where
  seasonPhase : String
  gamesPlayed : ℚ
  gamesRemaining : ℚ
  isCongestedPeriod : Bool
  deriving DecidableEq

/-- The complete feature dictionary returned by `get_match_features`: the
union of the seven groups (the source keeps them in one flat dict; each
`try`/`except` block writes exactly one group). -/
structure MatchFeatures where
  elo : EloBlock
  form : FormBlock
  stats : StatsBlock
  h2h : H2HBlock
  rivalry : RivalryBlock
  importance : ImportanceBlock
  timing : TimingBlock
  deriving DecidableEq

/-- Success branch of block 1 (lines 183-191): ELO values from
`get_team_elo` for both teams plus their difference. -/
def eloSuccessBlock (e : ℚ × ℚ) : EloBlock :=
  { homeElo := e.1, awayElo := e.2, eloDiff := e.1 - e.2, eloDiffAbs := |e.1 - e.2| }

/-- Except branch of block 1 (lines 195-200). -/
def eloDefaultBlock : EloBlock :=
  { homeElo := 1500, awayElo := 1500, eloDiff := 0, eloDiffAbs := 0 }

/-- Success branch of block 2 (lines 207-213): `form.get('points', 0)`
resolves to the dictionary's `points` value, while
`form.get('home_points', 0)` and `form.get('away_points', 0)` always
return the default 0 because `calculate_team_form` returns no such keys. -/
def formSuccessBlock (hf af : FormDict) : FormBlock :=
  { homeFormPoints := hf.points
    awayFormPoints := af.points
    homeFormHomePoints := 0
    awayFormAwayPoints := 0
    formDiff := (hf.points : ℚ) - (af.points : ℚ) }

/-- Except branch of block 2 (lines 217-223). -/
def formDefaultBlock : FormBlock :=
  { homeFormPoints := 0, awayFormPoints := 0, homeFormHomePoints := 0
    awayFormAwayPoints := 0, formDiff := 0 }

/-- Success branch of block 3 (lines 233-242): the strength keys exist in
the statistics dictionary; the engine reads the goals averages under
`*_avg` names that the dictionary does not contain (it uses `*_pg`), so
those four reads always yield the `.get` default 0. -/
def statsSuccessBlock (s : StatsDict) : StatsBlock :=
  { homeAttackStrength := s.homeAttackStrength
    homeDefenceStrength := s.homeDefenceStrength
    awayAttackStrength := s.awayAttackStrength
    awayDefenceStrength := s.awayDefenceStrength
    homeGoalsForAvg := 0
    homeGoalsAgainstAvg := 0
    awayGoalsForAvg := 0
    awayGoalsAgainstAvg := 0 }

/-- Except branch of block 3 (lines 246-255). -/
def statsDefaultBlock : StatsBlock :=
  { homeAttackStrength := 1, homeDefenceStrength := 1
    awayAttackStrength := 1, awayDefenceStrength := 1
    homeGoalsForAvg := 0, homeGoalsAgainstAvg := 0
    awayGoalsForAvg := 0, awayGoalsAgainstAvg := 0 }

/-- Success branch of block 4 (lines 265-273): the record counters exist in
the `analyse_h2h` dictionary; the goals averages are read under
`home_goals_avg`-style names the dictionary does not contain, so they
yield the `.get` default 0. -/
def h2hSuccessBlock (h : H2HDict) : H2HBlock :=
  { h2hMatchesPlayed := h.matchesPlayed
    h2hHomeWins := h.homeWins
    h2hAwayWins := h.awayWins
    h2hDraws := h.draws
    h2hHomeGoalsAvg := 0
    h2hAwayGoalsAvg := 0
    h2hTotalGoalsAvg := 0 }

/-- Except branch of block 4 (lines 277-285). -/
def h2hDefaultBlock : H2HBlock :=
  { h2hMatchesPlayed := 0, h2hHomeWins := 0, h2hAwayWins := 0, h2hDraws := 0
    h2hHomeGoalsAvg := 0, h2hAwayGoalsAvg := 0, h2hTotalGoalsAvg := 0 }

/-- Success branch of block 5 (lines 294-298): all three keys exist in the
`detect_rivalry` dictionary. -/
def rivalrySuccessBlock (r : RivalryDict) : RivalryBlock :=
  { isRivalry := r.isRivalry, isDerby := r.isDerby, rivalryType := r.rivalryType }

/-- Except branch of block 5 (lines 302-306). -/
def rivalryDefaultBlock : RivalryBlock :=
  { isRivalry := false, isDerby := false, rivalryType := "none" }

/-- Success branch of block 6 (lines 316-320): the engine reads
`home_importance`, `away_importance` and `match_importance`, none of which
is a key of the `calculate_importance` dictionary, so every read yields
the `.get` default 0. -/
def importanceSuccessBlock (_ : ImportanceDict) : ImportanceBlock :=
  { homeImportance := 0, awayImportance := 0, matchImportance := 0 }

/-- Except branch of block 6 (lines 324-328). -/
def importanceDefaultBlock : ImportanceBlock :=
  { homeImportance := 0, awayImportance := 0, matchImportance := 0 }

/-- Success branch of block 7 (lines 334-339): the engine reads `phase`,
`games_played`, `games_remaining` and `is_congested`, none of which is a
key of the `analyse_timing` dictionary, so every read yields its `.get`
default. -/
def timingSuccessBlock (_ : TimingDict) : TimingBlock :=
  { seasonPhase := "unknown", gamesPlayed := 0, gamesRemaining := 0
    isCongestedPeriod := false }

/-- Except branch of block 7 (lines 343-348). -/
def timingDefaultBlock : TimingBlock :=
  { seasonPhase := "unknown", gamesPlayed := 0, gamesRemaining := 0
    isCongestedPeriod := false }

/-- Outcome of each of the seven feature-source computations: `ok` when the
sub-call returns a value, `error` when it raises. -/
structure SourceOutcomes where
  elo : Except Unit (ℚ × ℚ)
  form : Except Unit (FormDict × FormDict)
  stats : Except Unit StatsDict
  h2h : Except Unit H2HDict
  rivalry : Except Unit RivalryDict
  importance : Except Unit ImportanceDict
  timing : Except Unit TimingDict

/-- One `try`/`except` block: use the success branch on a value, the
default branch on an exception. -/
def tryBlock {α β : Type} (r : Except Unit α) (ok : α → β) (fallback : β) : β :=
  match r with
  | .ok v => ok v
  | .error _ => fallback

/-- Embedding of `FeatureEngine.get_match_features` (lines 114-351): seven
independent `try`/`except` blocks, each filling its own feature group. -/
def getMatchFeatures (s : SourceOutcomes) : MatchFeatures :=
  { elo := tryBlock s.elo eloSuccessBlock eloDefaultBlock
    form := tryBlock s.form (fun p => formSuccessBlock p.1 p.2) formDefaultBlock
    stats := tryBlock s.stats statsSuccessBlock statsDefaultBlock
    h2h := tryBlock s.h2h h2hSuccessBlock h2hDefaultBlock
    rivalry := tryBlock s.rivalry rivalrySuccessBlock rivalryDefaultBlock
    importance := tryBlock s.importance importanceSuccessBlock importanceDefaultBlock
    timing := tryBlock s.timing timingSuccessBlock timingDefaultBlock }

/-- Parameter names of `FormCalculator.calculate_team_form`
(`src/features/form_calculator.py` lines 206-211). -/
def calculateTeamFormParamNames : List String :=
  ["self", "team_id", "before_date", "is_home"]

/-- Keyword arguments supplied by the form block of `get_match_features`
(lines 204-205): `self.form.calculate_team_form(team_id,
as_of_date=match_date)`. -/
def formCallKeywordNames : List String :=
  ["as_of_date"]

/-- Python keyword-call semantics: the call raises `TypeError` when a
supplied keyword is not among the callee's parameter names. -/
def formCallRaisesTypeError : Bool :=
  formCallKeywordNames.any (fun kw => ¬ calculateTeamFormParamNames.contains kw)

/-- Outcome of the engine's two `calculate_team_form` calls: whatever form
values the calculator would produce, the call itself raises when its
keyword is rejected. -/
def engineFormOutcome (f : FormDict × FormDict) : Except Unit (FormDict × FormDict) :=
  if formCallRaisesTypeError then .error () else .ok f

/-! ## Definitions: market predictors
(`src/models/goals/btts.py`, `src/models/goals/over_under.py`)

Only the fields of the recommendation dictionaries that the claims are
about are modelled (`bet`, `expected_value`, `reason`); the remaining
entries of the source dictionaries are reporting-only copies of the
inputs. The bet label carries the market name; the numeric threshold
suffix that `OverUnderModel` interpolates into its label is dropped. -/

/-- Betting recommendation produced by the two models. -/
structure BettingRecommendation where
  bet : String
  expectedValue : ℚ
  reason : Option String
  deriving DecidableEq

/-- Embedding of `BTTSModel.get_betting_recommendation` (lines 312-368).
Odds are optional: `bookmaker_odds.get('yes', 2.0)` supplies a default of
2.0 for the expected values. The yes-branch requires `yes_ev > 0`,
`yes_ev > no_ev` and `confidence >= min_confidence_threshold`; the
no-branch requires `no_ev > 0` and the confidence test; otherwise a
`No Bet` result with a reason is returned. -/
def bttsGetBettingRecommendation (minConfidenceThreshold : ℚ)
    (bttsYesProb bttsNoProb confidence : ℚ)
    (oddsYes oddsNo : Option ℚ) : BettingRecommendation :=
  let yesEv := bttsYesProb * oddsYes.getD 2 - 1
  let noEv := bttsNoProb * oddsNo.getD 2 - 1
  if yesEv > 0 ∧ yesEv > noEv ∧ confidence ≥ minConfidenceThreshold then
    { bet := "BTTS Yes", expectedValue := yesEv, reason := none }
  else if noEv > 0 ∧ confidence ≥ minConfidenceThreshold then
    { bet := "BTTS No", expectedValue := noEv, reason := none }
  else
    { bet := "No Bet", expectedValue := max yesEv noEv
      reason := some "No positive EV or insufficient confidence" }

/-- Embedding of `OverUnderModel.get_betting_recommendation`
(lines 355-415). The over-branch requires `over_ev > 0.05`,
`over_ev > under_ev` and `confidence >= 0.6`; the under-branch requires
`under_ev > 0.05` and `confidence >= 0.6`; otherwise a `No Bet` result
with a reason is returned. -/
def overUnderGetBettingRecommendation (overProb underProb confidence : ℚ)
    (oddsOver oddsUnder : Option ℚ) : BettingRecommendation :=
  let overEv := overProb * oddsOver.getD 2 - 1
  let underEv := underProb * oddsUnder.getD 2 - 1
  if overEv > 1 / 20 ∧ overEv > underEv ∧ confidence ≥ 3 / 5 then
    { bet := "Over", expectedValue := overEv, reason := none }
  else if underEv > 1 / 20 ∧ confidence ≥ 3 / 5 then
    { bet := "Under", expectedValue := underEv, reason := none }
  else
    { bet := "No Bet", expectedValue := max overEv underEv
      reason := some "Insufficient edge or confidence" }

/-! ## Definitions: ensemble combiner (`src/models/ensemble.py`) -/

/-- A member model's prediction as consumed by the ensemble: the
probability fields (keys ending in `_prob` in the source) and the
confidence, plus the `error` marker carried by `_get_default_prediction`.
-/
structure ModelPrediction where
  probs : List (String × ℚ)
  confidence : ℚ
  errorMessage : Option String
  deriving DecidableEq

/-- Embedding of `EnsembleModel._get_default_prediction` (lines 324-333):
an explicit failure result with zero confidence. -/
def ensembleDefaultPrediction : ModelPrediction :=
  { probs := [], confidence := 0, errorMessage := some "Ensemble prediction failed" }

/-- Surviving (prediction, weight) pairs of `EnsembleModel.predict`
(lines 126-152): a model whose `predict` raises contributes `None` and is
dropped together with its weight. -/
def validModelResults (results : List (Option ModelPrediction)) (weights : List ℚ) :
    List (ModelPrediction × ℚ) :=
  (results.zip weights).filterMap (fun rw => rw.1.map (fun p => (p, rw.2)))

/-- Total configured weight of the surviving models (line 159). -/
def totalValidWeight (results : List (Option ModelPrediction)) (weights : List ℚ) : ℚ :=
  ((validModelResults results weights).map (fun pw => pw.2)).sum

/-- Probability field names occurring in any of the predictions
(`_weighted_average`, lines 216-218), first occurrence order. -/
def probFieldKeys (preds : List ModelPrediction) : List String :=
  ((preds.map (fun p => p.probs.map (fun q => q.1))).flatten).dedup

/-- Field lookup in one prediction. -/
def lookupProb (p : ModelPrediction) (k : String) : Option ℚ :=
  (p.probs.find? (fun q => q.1 == k)).map (fun q => q.2)

/-- Weighted average of one probability field (`_weighted_average`,
lines 221-236): collect the field from the predictions that have it,
renormalize those weights, and take the weighted sum. (When the collected
weights sum to 0 the source raises `ZeroDivisionError`; in `ℚ` the
division yields 0.) -/
def weightedFieldAverage (pairs : List (ModelPrediction × ℚ)) (k : String) : Option ℚ :=
  let contrib := pairs.filterMap (fun pw => (lookupProb pw.1 k).map (fun v => (v, pw.2)))
  if contrib.isEmpty then none
  else
    let total := (contrib.map (fun vw => vw.2)).sum
    some ((contrib.map (fun vw => vw.1 * (vw.2 / total))).sum)

/-- Embedding of `EnsembleModel._weighted_average` (lines 196-242):
average every probability field and take the mean of the confidences. -/
def weightedAverageCombine (pairs : List (ModelPrediction × ℚ)) : ModelPrediction :=
  let keys := probFieldKeys (pairs.map (fun pw => pw.1))
  { probs := keys.filterMap (fun k => (weightedFieldAverage pairs k).map (fun v => (k, v)))
    confidence := ((pairs.map (fun pw => pw.1.confidence)).sum) / (pairs.length : ℚ)
    errorMessage := none }

/-- Embedding of `EnsembleModel.predict` (lines 99-194) for the default
`weighted_average` method: failing members are dropped, the surviving
weights are renormalized by their total, and when no member survives the
default (failure) prediction is returned. A zero total weight makes the
renormalization raise `ZeroDivisionError` in the source, which the
enclosing `try`/`except` turns into the default prediction as well. -/
def ensemblePredict (results : List (Option ModelPrediction)) (weights : List ℚ) :
    ModelPrediction :=
  let valid := validModelResults results weights
  if valid.isEmpty then ensembleDefaultPrediction
  else
    let total := (valid.map (fun pw => pw.2)).sum
    if total = 0 then ensembleDefaultPrediction
    else weightedAverageCombine (valid.map (fun pw => (pw.1, pw.2 / total)))

/-! ## Definitions: sample inputs used by the witness theorems -/

/-- Sample statistics payload. -/
def sampleStats : StatsDict :=
  { homeAttackStrength := 6 / 5, awayAttackStrength := 9 / 10
    homeDefenceStrength := 1, awayDefenceStrength := 11 / 10
    homeGoalsForPg := 2, awayGoalsForPg := 1
    homeGoalsAgainstPg := 1, awayGoalsAgainstPg := 3 / 2 }

/-- Sample source outcomes: ELO and statistics succeed, form and
head-to-head raise, the rest succeed. -/
def sampleOutcomes : SourceOutcomes :=
  { elo := .ok (1600, 1450)
    form := .error ()
    stats := .ok sampleStats
    h2h := .error ()
    rivalry := .ok { isRivalry := true, isDerby := true, rivalryType := "derby" }
    importance := .ok { importanceScore := 7, pointsGap := 3, homePosition := 2, awayPosition := 5 }
    timing := .ok { seasonStage := "mid", gameweekEstimate := 19, matchesIntoSeason := 18 } }

/-- Sample member prediction for the ensemble witness. -/
def samplePredictionA : ModelPrediction :=
  { probs := [("btts_yes_prob", 3 / 5)], confidence := 4 / 5, errorMessage := none }

/-! ## Theorems: ELO -/

theorem calculateExpectedScore_pos (homeAdvantage teamElo opponentElo : ℝ)
    (isHome : Bool) :
    0 < calculateExpectedScore homeAdvantage teamElo opponentElo isHome := by
  unfold calculateExpectedScore
  have h10 : (0 : ℝ) < (10 : ℝ) ^ ((opponentElo - (if isHome then teamElo + homeAdvantage else teamElo)) / 400) :=
    Real.rpow_pos_of_pos (by norm_num) _
  positivity

theorem calculateExpectedScore_lt_one (homeAdvantage teamElo opponentElo : ℝ)
    (isHome : Bool) :
    calculateExpectedScore homeAdvantage teamElo opponentElo isHome < 1 := by
  unfold calculateExpectedScore
  have h10 : (0 : ℝ) < (10 : ℝ) ^ ((opponentElo - (if isHome then teamElo + homeAdvantage else teamElo)) / 400) :=
    Real.rpow_pos_of_pos (by norm_num) _
  rw [div_lt_one (by linarith)]
  linarith

theorem calculateActualScore_mem (teamGoals opponentGoals : ℕ) :
    0 ≤ calculateActualScore teamGoals opponentGoals ∧
      calculateActualScore teamGoals opponentGoals ≤ 1 := by
  unfold calculateActualScore
  split_ifs <;> norm_num

theorem calculateGoalDifferenceMultiplier_one_le (gd : ℕ) :
    1 ≤ calculateGoalDifferenceMultiplier 1 gd := by
  unfold calculateGoalDifferenceMultiplier
  split_ifs with h
  · norm_num
  · have hs : 0 ≤ Real.sqrt ((gd : ℝ) - 1) := Real.sqrt_nonneg _
    have : (1 : ℝ) ≤ 1 + Real.sqrt ((gd : ℝ) - 1) * 1 * 0.5 := by nlinarith
    exact le_min this (by norm_num)

theorem calculateGoalDifferenceMultiplier_le (gd : ℕ) :
    calculateGoalDifferenceMultiplier 1 gd ≤ 2.5 := by
  unfold calculateGoalDifferenceMultiplier
  split_ifs with h
  · norm_num
  · exact min_le_right _ _

/-- Core bound shared by the rating-update theorems: each component of the
rating change produced by `update_elo` has magnitude at most `k * 2.5`. -/
theorem updateElo_change_bound (k homeAdvantage homeElo awayElo : ℝ)
    (homeGoals awayGoals : ℕ) (hk : 0 < k) :
    |(updateElo k homeAdvantage 1 homeElo awayElo homeGoals awayGoals).1 - homeElo| ≤ k * 2.5 ∧
      |(updateElo k homeAdvantage 1 homeElo awayElo homeGoals awayGoals).2 - awayElo| ≤ k * 2.5 := by
  have hexp0 := calculateExpectedScore_pos homeAdvantage homeElo awayElo true
  have hexp1 := calculateExpectedScore_lt_one homeAdvantage homeElo awayElo true
  have hact := calculateActualScore_mem homeGoals awayGoals
  have hm1 := calculateGoalDifferenceMultiplier_one_le (max homeGoals awayGoals - min homeGoals awayGoals)
  have hm2 := calculateGoalDifferenceMultiplier_le (max homeGoals awayGoals - min homeGoals awayGoals)
  set e := calculateExpectedScore homeAdvantage homeElo awayElo true
  set a := calculateActualScore homeGoals awayGoals
  set m := calculateGoalDifferenceMultiplier 1 (max homeGoals awayGoals - min homeGoals awayGoals)
  have hdelta : |a - e| ≤ 1 := by
    rw [abs_le]
    constructor <;> nlinarith [hact.1, hact.2]
  have hmain : ∀ d : ℝ, |d| ≤ 1 → |k * m * d| ≤ k * 2.5 := by
    intro d hd
    have hm0 : 0 ≤ m := by linarith
    have : |k * m * d| = k * m * |d| := by
      rw [abs_mul, abs_of_nonneg (by positivity : (0:ℝ) ≤ k * m)]
    rw [this]
    calc k * m * |d| ≤ k * m * 1 := by
          apply mul_le_mul_of_nonneg_left hd (by positivity)
      _ = k * m := by ring
      _ ≤ k * 2.5 := by nlinarith
  constructor
  · have h1 : (updateElo k homeAdvantage 1 homeElo awayElo homeGoals awayGoals).1 - homeElo
        = k * m * (a - e) := by
      simp only [updateElo]
      ring
    rw [h1]
    exact hmain _ hdelta
  · have h2 : (updateElo k homeAdvantage 1 homeElo awayElo homeGoals awayGoals).2 - awayElo
        = k * m * ((1 - a) - (1 - e)) := by
      simp only [updateElo]
      ring
    rw [h2]
    have : |(1 - a) - (1 - e)| ≤ 1 := by
      have : (1 - a) - (1 - e) = -(a - e) := by ring
      rw [this, abs_neg]
      exact hdelta
    exact hmain _ this

/-- Claim C3: for every rating update performed by `update_elo` (any real
home and away ratings, any goal counts, any positive k-factor, default
`goal_importance = 1.0`), the change applied to each side's rating is
bounded by `k * 2.5`, because the goal-difference multiplier is capped at
2.5 and `|actual - expected|` is at most 1. -/
theorem updateElo_abs_delta_le (k homeAdvantage homeElo awayElo : ℝ)
    (homeGoals awayGoals : ℕ) (hk : 0 < k) :
    |(updateElo k homeAdvantage 1 homeElo awayElo homeGoals awayGoals).1 - homeElo| ≤ k * 2.5 ∧
      |(updateElo k homeAdvantage 1 homeElo awayElo homeGoals awayGoals).2 - awayElo| ≤ k * 2.5 :=
  updateElo_change_bound k homeAdvantage homeElo awayElo homeGoals awayGoals hk

/-- Witness for C3: the bound instantiated with the calculator defaults
`k = 20`, `home_advantage = 100` on a concrete 5-1 home win between a
1850-rated and a 1450-rated side. -/
theorem updateElo_abs_delta_le_witness :
    |(updateElo 20 100 1 1850 1450 5 1).1 - 1850| ≤ 20 * 2.5 ∧
      |(updateElo 20 100 1 1850 1450 5 1).2 - 1450| ≤ 20 * 2.5 :=
  updateElo_abs_delta_le 20 100 1850 1450 5 1 (by norm_num)

/-- Numeric bound used by the C4 counterexample: `10 ^ (-1/4) < 2/3`. -/
theorem rpow_ten_neg_quarter_lt : (10 : ℝ) ^ ((-1 : ℝ) / 4) < 2 / 3 := by
  have h10 : (0 : ℝ) ≤ 10 := by norm_num
  have htpos : (0 : ℝ) < (10 : ℝ) ^ ((1 : ℝ) / 4) := Real.rpow_pos_of_pos (by norm_num) _
  have ht4 : ((10 : ℝ) ^ ((1 : ℝ) / 4)) ^ (4 : ℕ) = 10 := by
    rw [← Real.rpow_natCast ((10 : ℝ) ^ ((1 : ℝ) / 4)) 4, ← Real.rpow_mul h10]
    norm_num
  have htgt : (3 / 2 : ℝ) < (10 : ℝ) ^ ((1 : ℝ) / 4) := by
    by_contra hle
    push_neg at hle
    have hpow : ((10 : ℝ) ^ ((1 : ℝ) / 4)) ^ (4 : ℕ) ≤ (3 / 2 : ℝ) ^ (4 : ℕ) :=
      pow_le_pow_left₀ (le_of_lt htpos) hle 4
    rw [ht4] at hpow
    norm_num at hpow
  have hneg : (10 : ℝ) ^ ((-1 : ℝ) / 4) = ((10 : ℝ) ^ ((1 : ℝ) / 4))⁻¹ := by
    rw [← Real.rpow_neg h10]
    norm_num
  rw [hneg, inv_eq_one_div, div_lt_iff₀ htpos]
  linarith

/-- Expected-score value used by the C4 counterexample: with the default
home advantage of 100 the home expectation of a 1500 v 1500 match exceeds
3/5. -/
theorem calculateExpectedScore_equal_home_gt :
    3 / 5 < calculateExpectedScore 100 1500 1500 true := by
  unfold calculateExpectedScore
  have hx : ((1500 : ℝ) - (if true then (1500 : ℝ) + 100 else 1500)) / 400 = (-1 : ℝ) / 4 := by
    norm_num
  rw [hx]
  have ht := rpow_ten_neg_quarter_lt
  have htpos : (0 : ℝ) < (10 : ℝ) ^ ((-1 : ℝ) / 4) := Real.rpow_pos_of_pos (by norm_num) _
  rw [lt_div_iff₀ (by linarith)]
  linarith

/-- Counterexample to C4: `update_elo` applies the default home advantage
of 100 inside the expected-score formula, so a 1500 v 1500 match drawn 1-1
moves the home rating down by more than 2 points (about -2.8) and the away
rating up by the same amount; the deltas are not approximately 0 and the
home expected score is above 3/5 rather than 0.5. -/
theorem updateElo_equal_ratings_draw_delta_not_zero :
    (updateElo 20 100 1 1500 1500 1 1).1 - 1500 < -2 ∧
      2 < (updateElo 20 100 1 1500 1500 1 1).2 - 1500 := by
  have he := calculateExpectedScore_equal_home_gt
  have he1 := calculateExpectedScore_lt_one 100 1500 1500 true
  have ha : calculateActualScore 1 1 = 0.5 := by
    unfold calculateActualScore
    norm_num
  have hm : calculateGoalDifferenceMultiplier 1 (max 1 1 - min 1 1) = 1 := by
    unfold calculateGoalDifferenceMultiplier
    norm_num
  constructor
  · have h1 : (updateElo 20 100 1 1500 1500 1 1).1 - 1500
        = 20 * calculateGoalDifferenceMultiplier 1 (max 1 1 - min 1 1) *
          (calculateActualScore 1 1 - calculateExpectedScore 100 1500 1500 true) := by
      simp only [updateElo]
      ring
    rw [h1, hm, ha]
    nlinarith
  · have h2 : (updateElo 20 100 1 1500 1500 1 1).2 - 1500
        = 20 * calculateGoalDifferenceMultiplier 1 (max 1 1 - min 1 1) *
          ((1 - calculateActualScore 1 1) - (1 - calculateExpectedScore 100 1500 1500 true)) := by
      simp only [updateElo]
      ring
    rw [h2, hm, ha]
    nlinarith

/-- Claim C4 (amended): the "delta is approximately 0" behaviour for an
equally-rated 1-1 draw holds exactly when no home advantage is applied in
the expected-score formula: with `home_advantage = 0`, equal ratings and a
1-1 draw, `update_elo` returns both ratings unchanged (expected score 0.5,
actual score 0.5). With the calculator's default `home_advantage = 100`
the home delta is about -2.8 instead. -/
theorem updateElo_equal_ratings_draw_no_home_advantage (k goalImportance e : ℝ) :
    updateElo k 0 goalImportance e e 1 1 = (e, e) := by
  have hexp : calculateExpectedScore 0 e e true = 0.5 := by
    unfold calculateExpectedScore
    have hx : (e - (if true then e + 0 else e)) / 400 = (0 : ℝ) := by
      norm_num
    rw [hx, Real.rpow_zero]
    norm_num
  have ha : calculateActualScore 1 1 = 0.5 := by
    unfold calculateActualScore
    norm_num
  simp only [updateElo, hexp, ha, Prod.mk.injEq]
  constructor <;> ring

/-! ## Theorems: Poisson 1X2 probabilities (C1) -/

/-- Partition of the scoreline grid by the sign of `h - a`: the three 1X2
sums together exhaust the truncated matrix, whose total mass factors into
the two truncated Poisson marginal masses. -/
theorem oneXTwo_sum_eq (homeXg awayXg : ℝ) (maxGoals : ℕ) :
    homeWinProb homeXg awayXg maxGoals + drawProb homeXg awayXg maxGoals +
      awayWinProb homeXg awayXg maxGoals
    = (∑ k in Finset.range (maxGoals + 1), poissonPmf homeXg k) *
        (∑ k in Finset.range (maxGoals + 1), poissonPmf awayXg k) := by
  have htotal :
      (∑ p in scorelineGrid maxGoals, scorelineProb homeXg awayXg p)
        = (∑ k in Finset.range (maxGoals + 1), poissonPmf homeXg k) *
            (∑ k in Finset.range (maxGoals + 1), poissonPmf awayXg k) := by
    rw [Finset.sum_mul_sum]
    rw [scorelineGrid, Finset.sum_product]
    rfl
  have hsplit1 :
      (∑ p in (scorelineGrid maxGoals).filter (fun p => p.1 > p.2),
          scorelineProb homeXg awayXg p) +
        (∑ p in (scorelineGrid maxGoals).filter (fun p => ¬ p.1 > p.2),
          scorelineProb homeXg awayXg p)
        = ∑ p in scorelineGrid maxGoals, scorelineProb homeXg awayXg p :=
    Finset.sum_filter_add_sum_filter_not _ _ _
  have hsplit2 :
      (∑ p in ((scorelineGrid maxGoals).filter (fun p => ¬ p.1 > p.2)).filter
          (fun p => p.1 = p.2), scorelineProb homeXg awayXg p) +
        (∑ p in ((scorelineGrid maxGoals).filter (fun p => ¬ p.1 > p.2)).filter
          (fun p => ¬ p.1 = p.2), scorelineProb homeXg awayXg p)
        = ∑ p in (scorelineGrid maxGoals).filter (fun p => ¬ p.1 > p.2),
            scorelineProb homeXg awayXg p :=
    Finset.sum_filter_add_sum_filter_not _ _ _
  have heq1 : ((scorelineGrid maxGoals).filter (fun p => ¬ p.1 > p.2)).filter
      (fun p => p.1 = p.2) = (scorelineGrid maxGoals).filter (fun p => p.1 = p.2) := by
    rw [Finset.filter_filter]
    apply Finset.filter_congr
    intro x _
    constructor
    · intro h
      exact h.2
    · intro h
      exact ⟨by omega, h⟩
  have heq2 : ((scorelineGrid maxGoals).filter (fun p => ¬ p.1 > p.2)).filter
      (fun p => ¬ p.1 = p.2) = (scorelineGrid maxGoals).filter (fun p => p.1 < p.2) := by
    rw [Finset.filter_filter]
    apply Finset.filter_congr
    intro x _
    constructor
    · intro h
      omega
    · intro h
      omega
  rw [heq1, heq2] at hsplit2
  unfold homeWinProb drawProb awayWinProb
  rw [← htotal, ← hsplit1, ← hsplit2]
  ring

/-- Truncated Poisson mass at rate 5 over goal counts 0..10, as an exact
multiple of `exp (-5)`. -/
theorem truncatedPoissonMass_at_five :
    ∑ k in Finset.range 11, poissonPmf 5 k
      = Real.exp (-5) * (531185925 / 3628800) := by
  simp only [poissonPmf, Finset.sum_range_succ, Finset.sum_range_zero]
  norm_num [Nat.factorial]
  ring

/-- Lower numeric bound on `exp 10` from the 9-digit bound on `exp 1`. -/
theorem exp_ten_gt_bound : (21450 : ℝ) < Real.exp 10 := by
  have h1 : (2.7182818283 : ℝ) < Real.exp 1 := Real.exp_one_gt_d9
  have h2 : Real.exp 10 = Real.exp 1 ^ (10 : ℕ) := by
    rw [← Real.exp_nat_mul]
    norm_num
  have h3 : (2.7182818283 : ℝ) ^ (10 : ℕ) < Real.exp 1 ^ (10 : ℕ) :=
    pow_lt_pow_left₀ h1 (by norm_num) (by norm_num)
  have h4 : (21450 : ℝ) < 2.7182818283 ^ (10 : ℕ) := by norm_num
  linarith

/-- Counterexample to C1: at the top of the clamped range,
`home_xg = away_xg = 5.0` with the default `max_goals = 10`, the three 1X2
probabilities of `calculate_match_probabilities` sum to
`(P(X ≤ 10))²` for a Poisson rate of 5, which is about 0.9728 — short of 1
by far more than the claimed `1e-6` tolerance. -/
theorem oneXTwo_sum_misses_one_at_xg_five :
    homeWinProb 5 5 10 + drawProb 5 5 10 + awayWinProb 5 5 10 < 1 - 1 / 1000000 ∧
      1 / 1000000 <
        |homeWinProb 5 5 10 + drawProb 5 5 10 + awayWinProb 5 5 10 - 1| := by
  have hlt : homeWinProb 5 5 10 + drawProb 5 5 10 + awayWinProb 5 5 10
      < 1 - 1 / 1000000 := by
    rw [oneXTwo_sum_eq, truncatedPoissonMass_at_five]
    have hexp : Real.exp (-5) * Real.exp (-5) = Real.exp (-10) := by
      rw [← Real.exp_add]
      norm_num
    have hrw : Real.exp (-5) * (531185925 / 3628800) *
        (Real.exp (-5) * (531185925 / 3628800))
        = Real.exp (-10) * (531185925 / 3628800) ^ 2 := by
      rw [← hexp]
      ring
    rw [hrw]
    have hub : Real.exp (-10) < 1 / 21450 := by
      rw [Real.exp_neg]
      have h10 := exp_ten_gt_bound
      have hpos : (0 : ℝ) < Real.exp 10 := Real.exp_pos 10
      rw [inv_eq_one_div, div_lt_div_iff₀ hpos (by norm_num)]
      linarith
    have hq : (0 : ℝ) < (531185925 / 3628800 : ℝ) ^ 2 := by norm_num
    calc Real.exp (-10) * (531185925 / 3628800) ^ 2
        < (1 / 21450) * (531185925 / 3628800) ^ 2 :=
          mul_lt_mul_of_pos_right hub hq
      _ < 1 - 1 / 1000000 := by norm_num
  refine ⟨hlt, ?_⟩
  have : homeWinProb 5 5 10 + drawProb 5 5 10 + awayWinProb 5 5 10 - 1
      < -(1 / 1000000) := by linarith
  calc (1 / 1000000 : ℝ)
      < -(homeWinProb 5 5 10 + drawProb 5 5 10 + awayWinProb 5 5 10 - 1) := by linarith
    _ ≤ |homeWinProb 5 5 10 + drawProb 5 5 10 + awayWinProb 5 5 10 - 1| :=
        neg_le_abs _

/-- Claim C1 (amended): for every pair of expected-goal inputs and every
`max_goals`, the 1X2 probabilities of `calculate_match_probabilities` sum
exactly to the product of the two truncated Poisson cumulative masses
`∑_{k ≤ max_goals} P(k)`. This product is below 1, and it is within the
claimed `1e-6` of 1 only for small expected-goal values; at
`home_xg = away_xg = 5.0` the shortfall is about 0.027. -/
theorem oneXTwo_probabilities_sum (homeXg awayXg : ℝ) (maxGoals : ℕ) :
    homeWinProb homeXg awayXg maxGoals + drawProb homeXg awayXg maxGoals +
      awayWinProb homeXg awayXg maxGoals
    = (∑ k in Finset.range (maxGoals + 1), poissonPmf homeXg k) *
        (∑ k in Finset.range (maxGoals + 1), poissonPmf awayXg k) :=
  oneXTwo_sum_eq homeXg awayXg maxGoals

/-! ## Theorems: fair odds (C10) -/

/-- Claim C10: in `predict_match` each market's fair odds are computed
through the guard `1 / p if p > 0 else 999`, so the fair odds equal the
reciprocal exactly when the probability is strictly positive, the sentinel
999 is used at probability 0, and every market entry of the fair-odds
dictionary goes through this guard. -/
theorem predictMatch_fairOdds_guard (p : ℝ) :
    ((0 < p → fairOdd p = 1 / p) ∧ (p = 0 → fairOdd p = 999)) ∧
      ∀ homeXg awayXg : ℝ,
        (predictMatchFairOdds homeXg awayXg).homeWin
            = fairOdd (homeWinProb homeXg awayXg 10) ∧
          (predictMatchFairOdds homeXg awayXg).draw
            = fairOdd (drawProb homeXg awayXg 10) ∧
          (predictMatchFairOdds homeXg awayXg).awayWin
            = fairOdd (awayWinProb homeXg awayXg 10) ∧
          (predictMatchFairOdds homeXg awayXg).over25
            = fairOdd (over25Prob homeXg awayXg 10) ∧
          (predictMatchFairOdds homeXg awayXg).under25
            = fairOdd (1 - over25Prob homeXg awayXg 10) ∧
          (predictMatchFairOdds homeXg awayXg).bttsYes
            = fairOdd (bttsProb homeXg awayXg 10) ∧
          (predictMatchFairOdds homeXg awayXg).bttsNo
            = fairOdd (1 - bttsProb homeXg awayXg 10) := by
  refine ⟨⟨fun hp => ?_, fun hp => ?_⟩, fun homeXg awayXg => ?_⟩
  · unfold fairOdd
    rw [if_pos hp]
  · unfold fairOdd
    rw [hp]
    norm_num
  · exact ⟨rfl, rfl, rfl, rfl, rfl, rfl, rfl⟩

/-- Witness for C10: the guard evaluated at a positive probability and at
probability zero. -/
theorem predictMatch_fairOdds_guard_witness :
    fairOdd (1 / 2) = 1 / (1 / 2) ∧ fairOdd 0 = 999 :=
  ⟨(predictMatch_fairOdds_guard (1 / 2)).1.1 (by norm_num),
    (predictMatch_fairOdds_guard 0).1.2 rfl⟩

/-! ## Theorems: expected-goal monotonicity (C6) -/

/-- Unfolding of the home component of `calculate_expected_goals` into a
clamped product. -/
theorem calculateExpectedGoals_fst_eq (cfg : GoalsModelConfig)
    (homeAttack homeDefence awayAttack awayDefence l1 l2 hE aE fd : ℚ) :
    (calculateExpectedGoals cfg homeAttack homeDefence awayAttack awayDefence
        l1 l2 hE aE fd).1
      = clampXg (homeAttack * awayDefence * l1 * cfg.homeAdvantage *
          (if cfg.useElo then eloAdjustMultiplier cfg hE aE else 1) *
          (if cfg.useForm then formAdjustMultiplier cfg fd else 1)) := by
  rcases cfg with ⟨ha, ue, uf, ew, fw⟩
  simp only [calculateExpectedGoals]
  cases ue <;> cases uf <;> simp

/-- Unfolding of the away component of `calculate_expected_goals` into a
clamped quotient. -/
theorem calculateExpectedGoals_snd_eq (cfg : GoalsModelConfig)
    (homeAttack homeDefence awayAttack awayDefence l1 l2 hE aE fd : ℚ) :
    (calculateExpectedGoals cfg homeAttack homeDefence awayAttack awayDefence
        l1 l2 hE aE fd).2
      = clampXg (awayAttack * homeDefence * l2 /
          (if cfg.useElo then eloAdjustMultiplier cfg hE aE else 1) /
          (if cfg.useForm then formAdjustMultiplier cfg fd else 1)) := by
  rcases cfg with ⟨ha, ue, uf, ew, fw⟩
  simp only [calculateExpectedGoals]
  cases ue <;> cases uf <;> simp

/-- Strict monotonicity of the clamp on arguments that stay inside the
clamped band `[0.2, 5]`. -/
theorem clampXg_strict {x y : ℚ} (hxy : x < y) (hx : 1 / 5 ≤ x) (hy : y ≤ 5) :
    clampXg x < clampXg y := by
  unfold clampXg
  have hx5 : x ≤ 5 := le_trans (le_of_lt hxy) hy
  have hy15 : 1 / 5 ≤ y := le_trans hx (le_of_lt hxy)
  rw [min_eq_left hx5, max_eq_left hx, min_eq_left hy, max_eq_left hy15]
  exact hxy

/-- Multiplying by a positive coefficient preserves strict order through
the clamp when both products stay inside the clamped band. -/
theorem clampXg_mul_lt (K a b : ℚ) (hK : 0 < K) (hab : a < b)
    (h1 : 1 / 5 ≤ a * K) (h2 : b * K ≤ 5) :
    clampXg (a * K) < clampXg (b * K) :=
  clampXg_strict (mul_lt_mul_of_pos_right hab hK) h1 h2

/-- Counterexample to C6: with the optional adjustments disabled, raising
the opposing side's `defence_strength` multiplier from 1 to 2 raises the
home expected goals from 1.95 to 3.9 instead of lowering it (the
multiplier measures goals conceded relative to the baseline, so a larger
value means a weaker defence and multiplies the xG up); and raising the
home attack strength from 10 to 11 leaves the home expected goals
unchanged at the clamp ceiling 5.0, so the increase is not strict. -/
theorem calculateExpectedGoals_not_monotone_as_claimed :
    (calculateExpectedGoals goalsConfigPlain 1 1 1 1 (3 / 2) (3 / 2) 0 0 0).1
      < (calculateExpectedGoals goalsConfigPlain 1 1 1 2 (3 / 2) (3 / 2) 0 0 0).1 ∧
    (calculateExpectedGoals goalsConfigPlain 10 1 1 1 (3 / 2) (3 / 2) 0 0 0).1
      = (calculateExpectedGoals goalsConfigPlain 11 1 1 1 (3 / 2) (3 / 2) 0 0 0).1 := by
  constructor <;> norm_num [calculateExpectedGoals, goalsConfigPlain, clampXg]

/-- Claim C6 (amended): in `calculate_expected_goals`, holding every other
input fixed and keeping the remaining multiplicative coefficient positive,
a side's expected goals strictly increase with that side's attack strength
and also strictly increase with the opposing side's `defence_strength`
multiplier (which is goals-against relative to the league baseline, so
larger means weaker), provided both compared values lie inside the clamp
band `[0.2, 5.0]`; at the clamp boundaries the dependence is only weak. -/
theorem calculateExpectedGoals_strict_monotone :
    (∀ (cfg : GoalsModelConfig) (hD aA aD l1 l2 hE aE fd a b : ℚ),
      0 < aD * l1 * cfg.homeAdvantage *
          (if cfg.useElo then eloAdjustMultiplier cfg hE aE else 1) *
          (if cfg.useForm then formAdjustMultiplier cfg fd else 1) →
      a < b →
      1 / 5 ≤ a * (aD * l1 * cfg.homeAdvantage *
          (if cfg.useElo then eloAdjustMultiplier cfg hE aE else 1) *
          (if cfg.useForm then formAdjustMultiplier cfg fd else 1)) →
      b * (aD * l1 * cfg.homeAdvantage *
          (if cfg.useElo then eloAdjustMultiplier cfg hE aE else 1) *
          (if cfg.useForm then formAdjustMultiplier cfg fd else 1)) ≤ 5 →
      (calculateExpectedGoals cfg a hD aA aD l1 l2 hE aE fd).1
        < (calculateExpectedGoals cfg b hD aA aD l1 l2 hE aE fd).1) ∧
    (∀ (cfg : GoalsModelConfig) (hA hD aA l1 l2 hE aE fd a b : ℚ),
      0 < hA * l1 * cfg.homeAdvantage *
          (if cfg.useElo then eloAdjustMultiplier cfg hE aE else 1) *
          (if cfg.useForm then formAdjustMultiplier cfg fd else 1) →
      a < b →
      1 / 5 ≤ a * (hA * l1 * cfg.homeAdvantage *
          (if cfg.useElo then eloAdjustMultiplier cfg hE aE else 1) *
          (if cfg.useForm then formAdjustMultiplier cfg fd else 1)) →
      b * (hA * l1 * cfg.homeAdvantage *
          (if cfg.useElo then eloAdjustMultiplier cfg hE aE else 1) *
          (if cfg.useForm then formAdjustMultiplier cfg fd else 1)) ≤ 5 →
      (calculateExpectedGoals cfg hA hD aA a l1 l2 hE aE fd).1
        < (calculateExpectedGoals cfg hA hD aA b l1 l2 hE aE fd).1) ∧
    (∀ (cfg : GoalsModelConfig) (hA hD aD l1 l2 hE aE fd a b : ℚ),
      0 < hD * l2 /
          (if cfg.useElo then eloAdjustMultiplier cfg hE aE else 1) /
          (if cfg.useForm then formAdjustMultiplier cfg fd else 1) →
      a < b →
      1 / 5 ≤ a * (hD * l2 /
          (if cfg.useElo then eloAdjustMultiplier cfg hE aE else 1) /
          (if cfg.useForm then formAdjustMultiplier cfg fd else 1)) →
      b * (hD * l2 /
          (if cfg.useElo then eloAdjustMultiplier cfg hE aE else 1) /
          (if cfg.useForm then formAdjustMultiplier cfg fd else 1)) ≤ 5 →
      (calculateExpectedGoals cfg hA hD a aD l1 l2 hE aE fd).2
        < (calculateExpectedGoals cfg hA hD b aD l1 l2 hE aE fd).2) ∧
    (∀ (cfg : GoalsModelConfig) (hA aA aD l1 l2 hE aE fd a b : ℚ),
      0 < aA * l2 /
          (if cfg.useElo then eloAdjustMultiplier cfg hE aE else 1) /
          (if cfg.useForm then formAdjustMultiplier cfg fd else 1) →
      a < b →
      1 / 5 ≤ a * (aA * l2 /
          (if cfg.useElo then eloAdjustMultiplier cfg hE aE else 1) /
          (if cfg.useForm then formAdjustMultiplier cfg fd else 1)) →
      b * (aA * l2 /
          (if cfg.useElo then eloAdjustMultiplier cfg hE aE else 1) /
          (if cfg.useForm then formAdjustMultiplier cfg fd else 1)) ≤ 5 →
      (calculateExpectedGoals cfg hA a aA aD l1 l2 hE aE fd).2
        < (calculateExpectedGoals cfg hA b aA aD l1 l2 hE aE fd).2) := by
  refine ⟨?_, ?_, ?_, ?_⟩
  · intro cfg hD aA aD l1 l2 hE aE fd a b hK hab h1 h2
    rw [calculateExpectedGoals_fst_eq, calculateExpectedGoals_fst_eq]
    have ea : a * aD * l1 * cfg.homeAdvantage *
        (if cfg.useElo then eloAdjustMultiplier cfg hE aE else 1) *
        (if cfg.useForm then formAdjustMultiplier cfg fd else 1)
        = a * (aD * l1 * cfg.homeAdvantage *
          (if cfg.useElo then eloAdjustMultiplier cfg hE aE else 1) *
          (if cfg.useForm then formAdjustMultiplier cfg fd else 1)) := by ring
    have eb : b * aD * l1 * cfg.homeAdvantage *
        (if cfg.useElo then eloAdjustMultiplier cfg hE aE else 1) *
        (if cfg.useForm then formAdjustMultiplier cfg fd else 1)
        = b * (aD * l1 * cfg.homeAdvantage *
          (if cfg.useElo then eloAdjustMultiplier cfg hE aE else 1) *
          (if cfg.useForm then formAdjustMultiplier cfg fd else 1)) := by ring
    rw [ea, eb]
    exact clampXg_mul_lt _ _ _ hK hab h1 h2
  · intro cfg hA hD aA l1 l2 hE aE fd a b hK hab h1 h2
    rw [calculateExpectedGoals_fst_eq, calculateExpectedGoals_fst_eq]
    have ea : hA * a * l1 * cfg.homeAdvantage *
        (if cfg.useElo then eloAdjustMultiplier cfg hE aE else 1) *
        (if cfg.useForm then formAdjustMultiplier cfg fd else 1)
        = a * (hA * l1 * cfg.homeAdvantage *
          (if cfg.useElo then eloAdjustMultiplier cfg hE aE else 1) *
          (if cfg.useForm then formAdjustMultiplier cfg fd else 1)) := by ring
    have eb : hA * b * l1 * cfg.homeAdvantage *
        (if cfg.useElo then eloAdjustMultiplier cfg hE aE else 1) *
        (if cfg.useForm then formAdjustMultiplier cfg fd else 1)
        = b * (hA * l1 * cfg.homeAdvantage *
          (if cfg.useElo then eloAdjustMultiplier cfg hE aE else 1) *
          (if cfg.useForm then formAdjustMultiplier cfg fd else 1)) := by ring
    rw [ea, eb]
    exact clampXg_mul_lt _ _ _ hK hab h1 h2
  · intro cfg hA hD aD l1 l2 hE aE fd a b hK hab h1 h2
    rw [calculateExpectedGoals_snd_eq, calculateExpectedGoals_snd_eq]
    have ea : a * hD * l2 /
        (if cfg.useElo then eloAdjustMultiplier cfg hE aE else 1) /
        (if cfg.useForm then formAdjustMultiplier cfg fd else 1)
        = a * (hD * l2 /
          (if cfg.useElo then eloAdjustMultiplier cfg hE aE else 1) /
          (if cfg.useForm then formAdjustMultiplier cfg fd else 1)) := by ring
    have eb : b * hD * l2 /
        (if cfg.useElo then eloAdjustMultiplier cfg hE aE else 1) /
        (if cfg.useForm then formAdjustMultiplier cfg fd else 1)
        = b * (hD * l2 /
          (if cfg.useElo then eloAdjustMultiplier cfg hE aE else 1) /
          (if cfg.useForm then formAdjustMultiplier cfg fd else 1)) := by ring
    rw [ea, eb]
    exact clampXg_mul_lt _ _ _ hK hab h1 h2
  · intro cfg hA aA aD l1 l2 hE aE fd a b hK hab h1 h2
    rw [calculateExpectedGoals_snd_eq, calculateExpectedGoals_snd_eq]
    have ea : aA * a * l2 /
        (if cfg.useElo then eloAdjustMultiplier cfg hE aE else 1) /
        (if cfg.useForm then formAdjustMultiplier cfg fd else 1)
        = a * (aA * l2 /
          (if cfg.useElo then eloAdjustMultiplier cfg hE aE else 1) /
          (if cfg.useForm then formAdjustMultiplier cfg fd else 1)) := by ring
    have eb : aA * b * l2 /
        (if cfg.useElo then eloAdjustMultiplier cfg hE aE else 1) /
        (if cfg.useForm then formAdjustMultiplier cfg fd else 1)
        = b * (aA * l2 /
          (if cfg.useElo then eloAdjustMultiplier cfg hE aE else 1) /
          (if cfg.useForm then formAdjustMultiplier cfg fd else 1)) := by ring
    rw [ea, eb]
    exact clampXg_mul_lt _ _ _ hK hab h1 h2

/-- Witness for the amended C6: doubling the home attack strength from 1
to 2 with unit coefficients (home advantage 1.3, adjustments off) moves
the home expected goals from 1.3 to 2.6. -/
theorem calculateExpectedGoals_strict_monotone_witness :
    (calculateExpectedGoals goalsConfigPlain 1 1 1 1 1 1 0 0 0).1
      < (calculateExpectedGoals goalsConfigPlain 2 1 1 1 1 1 0 0 0).1 :=
  calculateExpectedGoals_strict_monotone.1 goalsConfigPlain 1 1 1 1 1 0 0 0 1 2
    (by norm_num [goalsConfigPlain]) (by norm_num)
    (by norm_num [goalsConfigPlain]) (by norm_num [goalsConfigPlain])

/-! ## Theorems: form calculator on an empty window (C5) -/

/-- Counterexample to C5: with zero matches `calculate_team_form` returns
`_empty_form`, whose `points_per_game` is 0.0, not the claimed neutral
1.5; the empty result string and neutral momentum parts do hold. -/
theorem calculateTeamForm_empty_ppg_counterexample :
    (calculateTeamForm (9 / 10) []).pointsPerGame = 0 ∧
      (calculateTeamForm (9 / 10) []).pointsPerGame ≠ 3 / 2 ∧
      (calculateTeamForm (9 / 10) []).formString = "" ∧
      (calculateTeamForm (9 / 10) []).momentum = "neutral" := by
  refine ⟨rfl, ?_, rfl, rfl⟩
  have h0 : (calculateTeamForm (9 / 10) []).pointsPerGame = 0 := rfl
  rw [h0]
  norm_num

/-- Claim C5 (amended): over a window containing zero matches
`calculate_team_form` does not fail and returns the `_empty_form`
defaults: points-per-game 0.0 (not 1.5), an empty result string, and
neutral momentum. -/
theorem calculateTeamForm_empty_defaults (decay : ℚ) :
    calculateTeamForm decay [] = emptyForm ∧
      emptyForm.pointsPerGame = 0 ∧
      emptyForm.formString = "" ∧
      emptyForm.momentum = "neutral" :=
  ⟨rfl, rfl, rfl, rfl⟩

/-! ## Theorems: feature aggregator (C2, C9) -/

/-- Claim C2: whichever subset of the seven feature sources raises,
`get_match_features` still returns a complete feature record in which each
failing source's keys carry that source's documented defaults and each
non-failing source's keys carry the values its success branch computes
from the source's output; each group is a function of its own source
outcome alone, so a failure in one source never changes or aborts the
computation of the others. -/
theorem getMatchFeatures_source_isolation (s : SourceOutcomes) :
    (∀ v, s.elo = .ok v → (getMatchFeatures s).elo = eloSuccessBlock v) ∧
    (∀ e, s.elo = .error e → (getMatchFeatures s).elo = eloDefaultBlock) ∧
    (∀ v, s.form = .ok v → (getMatchFeatures s).form = formSuccessBlock v.1 v.2) ∧
    (∀ e, s.form = .error e → (getMatchFeatures s).form = formDefaultBlock) ∧
    (∀ v, s.stats = .ok v → (getMatchFeatures s).stats = statsSuccessBlock v) ∧
    (∀ e, s.stats = .error e → (getMatchFeatures s).stats = statsDefaultBlock) ∧
    (∀ v, s.h2h = .ok v → (getMatchFeatures s).h2h = h2hSuccessBlock v) ∧
    (∀ e, s.h2h = .error e → (getMatchFeatures s).h2h = h2hDefaultBlock) ∧
    (∀ v, s.rivalry = .ok v → (getMatchFeatures s).rivalry = rivalrySuccessBlock v) ∧
    (∀ e, s.rivalry = .error e → (getMatchFeatures s).rivalry = rivalryDefaultBlock) ∧
    (∀ v, s.importance = .ok v →
      (getMatchFeatures s).importance = importanceSuccessBlock v) ∧
    (∀ e, s.importance = .error e →
      (getMatchFeatures s).importance = importanceDefaultBlock) ∧
    (∀ v, s.timing = .ok v → (getMatchFeatures s).timing = timingSuccessBlock v) ∧
    (∀ e, s.timing = .error e → (getMatchFeatures s).timing = timingDefaultBlock) := by
  refine ⟨?_, ?_, ?_, ?_, ?_, ?_, ?_, ?_, ?_, ?_, ?_, ?_, ?_, ?_⟩ <;>
    intro v hv <;> simp [getMatchFeatures, tryBlock, hv]

/-- Witness for C2: on the sample outcomes (ELO and statistics succeed,
form and head-to-head raise) the returned record carries the computed
values for the succeeding sources and the defaults for the raising ones. -/
theorem getMatchFeatures_source_isolation_witness :
    (getMatchFeatures sampleOutcomes).elo = eloSuccessBlock (1600, 1450) ∧
      (getMatchFeatures sampleOutcomes).form = formDefaultBlock ∧
      (getMatchFeatures sampleOutcomes).stats = statsSuccessBlock sampleStats ∧
      (getMatchFeatures sampleOutcomes).h2h = h2hDefaultBlock := by
  have h := getMatchFeatures_source_isolation sampleOutcomes
  exact ⟨h.1 _ rfl, h.2.2.2.1 _ rfl, h.2.2.2.2.1 _ rfl, h.2.2.2.2.2.2.2.1 _ rfl⟩

/-- Claim C9: the form block of `get_match_features` passes the keyword
`as_of_date`, which `calculate_team_form` does not accept, so the call
always raises `TypeError`; the except branch therefore always substitutes
the fallback form values (all five form keys 0), independently of whatever
form values the calculator would have produced, and recent form never
influences the aggregated features. -/
theorem getMatchFeatures_form_always_default :
    formCallRaisesTypeError = true ∧
      ∀ (s : SourceOutcomes) (f : FormDict × FormDict),
        (getMatchFeatures { s with form := engineFormOutcome f }).form
            = formDefaultBlock ∧
          formDefaultBlock.homeFormPoints = 0 ∧
          formDefaultBlock.awayFormPoints = 0 ∧
          formDefaultBlock.homeFormHomePoints = 0 ∧
          formDefaultBlock.awayFormAwayPoints = 0 ∧
          formDefaultBlock.formDiff = 0 := by
  refine ⟨by decide, fun s f => ⟨?_, rfl, rfl, rfl, rfl, rfl⟩⟩
  rfl

/-! ## Theorems: market-predictor betting gates (C7) -/

/-- Claim C7: both `get_betting_recommendation` implementations recommend a
bet only when that bet's expected value is above the predictor's bound
(strictly above 0 for BTTS, strictly above 0.05 for Over/Under) and the
prediction's confidence is at or above the threshold; in every other case
the recommendation is `No Bet` and carries a reason. -/
theorem bettingRecommendation_gate :
    (∀ (thr yesProb noProb conf : ℚ) (oddsYes oddsNo : Option ℚ),
      ((bttsGetBettingRecommendation thr yesProb noProb conf oddsYes oddsNo).bet
          = "BTTS Yes" → yesProb * oddsYes.getD 2 - 1 > 0 ∧ conf ≥ thr) ∧
      ((bttsGetBettingRecommendation thr yesProb noProb conf oddsYes oddsNo).bet
          = "BTTS No" → noProb * oddsNo.getD 2 - 1 > 0 ∧ conf ≥ thr) ∧
      ((bttsGetBettingRecommendation thr yesProb noProb conf oddsYes oddsNo).bet
          ≠ "BTTS Yes" →
        (bttsGetBettingRecommendation thr yesProb noProb conf oddsYes oddsNo).bet
          ≠ "BTTS No" →
        (bttsGetBettingRecommendation thr yesProb noProb conf oddsYes oddsNo).bet
            = "No Bet" ∧
          (bttsGetBettingRecommendation thr yesProb noProb conf oddsYes oddsNo).reason
            = some "No positive EV or insufficient confidence")) ∧
    (∀ (overProb underProb conf : ℚ) (oddsOver oddsUnder : Option ℚ),
      ((overUnderGetBettingRecommendation overProb underProb conf oddsOver oddsUnder).bet
          = "Over" → overProb * oddsOver.getD 2 - 1 > 1 / 20 ∧ conf ≥ 3 / 5) ∧
      ((overUnderGetBettingRecommendation overProb underProb conf oddsOver oddsUnder).bet
          = "Under" → underProb * oddsUnder.getD 2 - 1 > 1 / 20 ∧ conf ≥ 3 / 5) ∧
      ((overUnderGetBettingRecommendation overProb underProb conf oddsOver oddsUnder).bet
          ≠ "Over" →
        (overUnderGetBettingRecommendation overProb underProb conf oddsOver oddsUnder).bet
          ≠ "Under" →
        (overUnderGetBettingRecommendation overProb underProb conf oddsOver oddsUnder).bet
            = "No Bet" ∧
          (overUnderGetBettingRecommendation overProb underProb conf oddsOver oddsUnder).reason
            = some "Insufficient edge or confidence")) := by
  constructor
  · intro thr yesProb noProb conf oddsYes oddsNo
    simp only [bttsGetBettingRecommendation]
    split_ifs with h1 h2
    · refine ⟨fun _ => ⟨h1.1, h1.2.2⟩, fun hb => ?_, fun hy _ => absurd rfl hy⟩
      simp at hb
    · refine ⟨fun hb => ?_, fun _ => ⟨h2.1, h2.2⟩, fun _ hn => absurd rfl hn⟩
      simp at hb
    · refine ⟨fun hb => ?_, fun hb => ?_, fun _ _ => ⟨rfl, rfl⟩⟩ <;> simp at hb
  · intro overProb underProb conf oddsOver oddsUnder
    simp only [overUnderGetBettingRecommendation]
    split_ifs with h1 h2
    · refine ⟨fun _ => ⟨h1.1, h1.2.2⟩, fun hb => ?_, fun hy _ => absurd rfl hy⟩
      simp at hb
    · refine ⟨fun hb => ?_, fun _ => ⟨h2.1, h2.2⟩, fun _ hn => absurd rfl hn⟩
      simp at hb
    · refine ⟨fun hb => ?_, fun hb => ?_, fun _ _ => ⟨rfl, rfl⟩⟩ <;> simp at hb

/-- Witness for C7: a concrete BTTS Yes situation satisfies the gate
conditions, and a concrete no-edge Over/Under situation yields `No Bet`
with its reason. -/
theorem bettingRecommendation_gate_witness :
    ((4 : ℚ) / 5 * (Option.some (2 : ℚ)).getD 2 - 1 > 0 ∧ (9 : ℚ) / 10 ≥ 3 / 5) ∧
      ((overUnderGetBettingRecommendation (1 / 2) (1 / 2) 1 (some 2) (some 2)).bet
          = "No Bet" ∧
        (overUnderGetBettingRecommendation (1 / 2) (1 / 2) 1 (some 2) (some 2)).reason
          = some "Insufficient edge or confidence") :=
  ⟨(bettingRecommendation_gate.1 (3 / 5) (4 / 5) (1 / 5) (9 / 10)
      (some 2) (some 2)).1
      (by
        simp only [bttsGetBettingRecommendation, Option.getD_some]
        rw [if_pos (by norm_num)]),
    (bettingRecommendation_gate.2 (1 / 2) (1 / 2) 1 (some 2) (some 2)).2.2
      (by
        simp only [overUnderGetBettingRecommendation, Option.getD_some]
        rw [if_neg (by norm_num), if_neg (by norm_num)]
        simp)
      (by
        simp only [overUnderGetBettingRecommendation, Option.getD_some]
        rw [if_neg (by norm_num), if_neg (by norm_num)]
        simp)⟩

/-! ## Theorems: ensemble combiner (C8) -/

/-- A batch in which every member failed yields no surviving pairs. -/
theorem validModelResults_nil_of_all_none :
    ∀ (results : List (Option ModelPrediction)) (weights : List ℚ),
      (∀ r ∈ results, r = none) → validModelResults results weights = [] := by
  intro results
  induction results with
  | nil =>
    intro ws _
    rfl
  | cons r rs ih =>
    intro ws h
    cases ws with
    | nil => rfl
    | cons w ws2 =>
      have hr : r = none := h r (List.mem_cons_self r rs)
      subst hr
      simpa [validModelResults] using
        ih ws2 (fun x hx => h x (List.mem_cons_of_mem _ hx))

/-- Dividing every list element by a constant divides the sum. -/
theorem list_sum_map_div (l : List ℚ) (c : ℚ) :
    (l.map (fun w => w / c)).sum = l.sum / c := by
  induction l with
  | nil => simp
  | cons h t ih =>
    simp [ih]
    ring

/-- Claim C8: on every `EnsembleModel.predict` query, members whose
`predict` raises are dropped; when any member survives and the surviving
configured weights have a nonzero total, those weights are renormalized to
sum to 1 before combining and the result is the weighted-average
combination of exactly the surviving predictions; when every member fails
the explicit failure result with confidence 0.0 is returned. -/
theorem ensemblePredict_spec (results : List (Option ModelPrediction))
    (weights : List ℚ) :
    ((∀ r ∈ results, r = none) →
      ensemblePredict results weights = ensembleDefaultPrediction) ∧
    ensembleDefaultPrediction.confidence = 0 ∧
    (totalValidWeight results weights ≠ 0 →
      ((validModelResults results weights).map
          (fun pw => pw.2 / totalValidWeight results weights)).sum = 1 ∧
        ensemblePredict results weights
          = weightedAverageCombine ((validModelResults results weights).map
              (fun pw => (pw.1, pw.2 / totalValidWeight results weights)))) := by
  refine ⟨?_, rfl, ?_⟩
  · intro h
    simp [ensemblePredict, validModelResults_nil_of_all_none results weights h]
  · intro ht
    have hmapsum : ((validModelResults results weights).map
        (fun pw => pw.2 / totalValidWeight results weights)).sum = 1 := by
      have hcomp : (validModelResults results weights).map
          (fun pw => pw.2 / totalValidWeight results weights)
          = ((validModelResults results weights).map (fun pw => pw.2)).map
              (fun w => w / totalValidWeight results weights) := by
        rw [List.map_map]
        rfl
      rw [hcomp, list_sum_map_div]
      exact div_self ht
    refine ⟨hmapsum, ?_⟩
    have hne : validModelResults results weights ≠ [] := by
      intro hemp
      apply ht
      unfold totalValidWeight
      rw [hemp]
      rfl
    simp only [ensemblePredict]
    rw [if_neg (by simpa [List.isEmpty_iff] using hne),
      if_neg (show ¬ ((validModelResults results weights).map
        (fun pw => pw.2)).sum = 0 from ht)]
    rfl

/-- Witness for C8: a two-member batch where both fail returns the failure
result, and a mixed batch (one survivor of weight 3/5) renormalizes the
surviving weight to sum to 1. -/
theorem ensemblePredict_spec_witness :
    ensemblePredict [none, none] [1 / 2, 1 / 2] = ensembleDefaultPrediction ∧
      ((validModelResults [some samplePredictionA, none] [3 / 5, 2 / 5]).map
          (fun pw => pw.2 /
            totalValidWeight [some samplePredictionA, none] [3 / 5, 2 / 5])).sum = 1 :=
  ⟨(ensemblePredict_spec [none, none] [1 / 2, 1 / 2]).1
      (by
        intro r hr
        simp only [List.mem_cons, List.not_mem_nil, or_false] at hr
        rcases hr with rfl | rfl <;> rfl),
    ((ensemblePredict_spec [some samplePredictionA, none] [3 / 5, 2 / 5]).2.2
      (by norm_num [totalValidWeight, validModelResults, samplePredictionA,
        List.filterMap_cons])).1⟩
